import Mathlib

/-!
Verification of the SAFE-MCP inspection layer.

This file gives a shallow embedding, in Lean, of the components of the
repository that the verified properties concern:

* `backend/flow_control/information_flow_tracker.py` — taint tracking
  (`InformationFlowTracker`): `mark_tainted`, `propagate_taint`,
  `check_flow`, `_check_policy`, `_is_external_endpoint`,
  `identify_source_sensitivity`.
* `backend/gateway/tool_router 2.py` — `ToolRouter.register_tools` and
  `_rename_conflicting_tool`.
* `backend/services/dynamic_detection_engine.py` —
  `DynamicDetectionEngine._aggregate_results`.
* `backend/mcp_gateway_service.py` — `MCPGateway.handle_request`
  decision step, `_create_blocked_response`, and
  `services/mcp_protocol_parser.py` error codes.
* `backend/engine/pattern_matcher.py` — `PatternMatcher.match`.
* `backend/isolation/execution_isolation.py` —
  `ExecutionIsolation._check_capabilities` and
  `validate_call_against_policy`.
* `backend/adaptive/adaptive_policy_engine.py` —
  `AdaptivePolicyEngine.adapt_decision` statistics updates.

Modelling conventions: Python dicts keyed by strings become insertion
ordered association lists (`alookup` / `upsert` / `eraseKey`); Python
floats become `Rat` (the arithmetic the claims touch is exact at these
values); wall-clock fields (`timestamp`, `created_at`, `last_seen`) and
log statements carry no information used by any branch and are omitted;
`hashlib.sha256(str(data)).hexdigest()[:16]` fingerprints are taken as
the opaque identifying strings the registry is keyed by, so the embedded
operations receive the fingerprint directly.
-/

namespace SafeMCP

/-- Association-list lookup, modelling `d[k]` / `k in d` on a Python dict. -/
def alookup {β : Type} (k : String) : List (String × β) → Option β
  | [] => none
  | (k1, v) :: t => if k1 = k then some v else alookup k t

/-- Association-list insert-or-update, modelling `d[k] = v` on a Python
dict (updates in place, otherwise appends, preserving insertion order). -/
def upsert {β : Type} (k : String) (v : β) : List (String × β) → List (String × β)
  | [] => [(k, v)]
  | (k1, v1) :: t => if k1 = k then (k, v) :: t else (k1, v1) :: upsert k v t

/-- Association-list delete, modelling `del d[k]` on a Python dict. -/
def eraseKey {β : Type} (k : String) : List (String × β) → List (String × β)
  | [] => []
  | (k1, v1) :: t => if k1 = k then t else (k1, v1) :: eraseKey k t

/-- Substring test on character lists. -/
def hasSubList (needle : List Char) : List Char → Bool
  | [] => needle.isEmpty
  | c :: t => needle.isPrefixOf (c :: t) || hasSubList needle t

/-- Python `pat in hay` on strings (substring containment). -/
def strContains (hay pat : String) : Bool :=
  hasSubList pat.toList hay.toList

/-- Python `hay.startswith(pat)`. -/
def strStarts (hay pat : String) : Bool :=
  pat.toList.isPrefixOf hay.toList

/-- Python `s.lower()` (ASCII-level model via `Char.toLower`). -/
def lowerStr (s : String) : String :=
  String.mk (s.toList.map Char.toLower)

/-! ### Information flow tracker (`information_flow_tracker.py`) -/

/-- Enum `TaintLevel`: sensitivity levels for tainted data. -/
inductive TaintLevel
  | CLEAN
  | LOW
  | MEDIUM
  | HIGH
  | CRITICAL
deriving DecidableEq

/-- The `.value` of each `TaintLevel` enum member. -/
def TaintLevel.value : TaintLevel → Nat
  | .CLEAN => 0
  | .LOW => 1
  | .MEDIUM => 2
  | .HIGH => 3
  | .CRITICAL => 4

/-- The `.name` of each `TaintLevel` enum member. -/
def TaintLevel.name : TaintLevel → String
  | .CLEAN => "CLEAN"
  | .LOW => "LOW"
  | .MEDIUM => "MEDIUM"
  | .HIGH => "HIGH"
  | .CRITICAL => "CRITICAL"

/-- Python `max(a, b, key=lambda x: x.value)`: keeps the first argument
unless the second has a strictly greater key. -/
def TaintLevel.pymax (a b : TaintLevel) : TaintLevel :=
  if a.value < b.value then b else a

/-- Ordering of taint levels by their numeric value. -/
def TaintLevel.le (a b : TaintLevel) : Prop := a.value ≤ b.value

instance : DecidablePred fun p : TaintLevel × TaintLevel => TaintLevel.le p.1 p.2 :=
  fun p => inferInstanceAs (Decidable (p.1.value ≤ p.2.value))

instance (a b : TaintLevel) : Decidable (TaintLevel.le a b) :=
  inferInstanceAs (Decidable (a.value ≤ b.value))

/-- Enum `SinkType`: types of data sinks. -/
inductive SinkType
  | FILESYSTEM
  | NETWORK
  | PROCESS
  | STDOUT
  | LOG
deriving DecidableEq

/-- The `.value` string of each `SinkType` enum member. -/
def SinkType.valueStr : SinkType → String
  | .FILESYSTEM => "filesystem"
  | .NETWORK => "network"
  | .PROCESS => "process"
  | .STDOUT => "stdout"
  | .LOG => "log"

/-- Dataclass `TaintSource` (timestamp and metadata omitted: wall clock
and logging payload, never read by a branch). -/
structure TaintSource where
  source_id : String
  source_type : String
  path : String
  taint_level : TaintLevel
deriving DecidableEq

/-- Dataclass `TaintedData` (created_at omitted: wall clock). -/
structure TaintedData where
  data_hash : String
  sources : List TaintSource
  taint_level : TaintLevel
  propagation_path : List String
deriving DecidableEq

/-- Dataclass `FlowViolation` (timestamp omitted: wall clock). -/
structure FlowViolation where
  violation_type : String
  source : TaintSource
  sink_type : SinkType
  sink_destination : String
  taint_level : TaintLevel
  blocked : Bool
  reason : String
deriving DecidableEq

/-- Dataclass `FlowCheckResult`. -/
structure FlowCheckResult where
  allowed : Bool
  violations : List FlowViolation
  taint_level : TaintLevel
  sources : List TaintSource
  reason : Option String
deriving DecidableEq

/-- Mutable state of an `InformationFlowTracker` instance. -/
structure TrackerState where
  tainted_data_registry : List (String × TaintedData)
  flow_violations : List FlowViolation
  session_flows : List (String × List String)
deriving DecidableEq

/-- Constructor `InformationFlowTracker.__init__`: empty registry, no violations. -/
def TrackerState.init : TrackerState := ⟨[], [], []⟩

/-- Method `_load_sensitive_patterns`: mapping of path patterns to taint levels,
in the insertion order of the Python dict literal. -/
def sensitivePatterns : List (String × TaintLevel) :=
  [("password", .CRITICAL), ("token", .CRITICAL), ("secret", .CRITICAL),
   ("api_key", .CRITICAL), ("private_key", .CRITICAL), (".ssh/", .CRITICAL),
   ("credentials", .CRITICAL),
   (".env", .HIGH), ("config", .HIGH), ("settings", .HIGH),
   (".aws", .HIGH), (".gcp", .HIGH),
   ("user", .MEDIUM), ("profile", .MEDIUM), ("session", .MEDIUM),
   ("internal", .LOW), ("private", .LOW)]

/-- First pattern of the list contained in the (lowered) path wins. -/
def findPattern : List (String × TaintLevel) → String → Option TaintLevel
  | [], _ => none
  | (p, l) :: t, s => if strContains s p then some l else findPattern t s

/-- Method `identify_source_sensitivity`: pattern table first, then system
directories, else CLEAN. -/
def identifySourceSensitivity (source_path : String) : TaintLevel :=
  let path_lower := lowerStr source_path
  match findPattern sensitivePatterns path_lower with
  | some level => level
  | none =>
      if ["/etc/", "/sys/", "/proc/", "/root/"].any
          (fun d => strContains path_lower d) then
        TaintLevel.HIGH
      else
        TaintLevel.CLEAN

/-- Session flow append: Python guards with `if session_id:` (falsey for
`None` and for the empty string) and creates the list on first use. -/
def sessionTrack (session_id? : Option String) (entry : String)
    (flows : List (String × List String)) : List (String × List String) :=
  match session_id? with
  | none => flows
  | some sid =>
      if sid = "" then flows
      else
        match alookup sid flows with
        | none => upsert sid [entry] flows
        | some chain => upsert sid (chain ++ [entry]) flows

/-- Method `mark_tainted`: registers (or augments) the registry entry for the
data's fingerprint and returns that fingerprint. -/
def markTainted (st : TrackerState) (data_hash source_path source_type : String)
    (taint_level? : Option TaintLevel) (session_id? : Option String) :
    TrackerState × String :=
  let level := taint_level?.getD (identifySourceSensitivity source_path)
  let source : TaintSource :=
    ⟨source_type ++ ":" ++ source_path, source_type, source_path, level⟩
  let registry :=
    match alookup data_hash st.tainted_data_registry with
    | some existing =>
        upsert data_hash
          { existing with
              sources := existing.sources ++ [source],
              taint_level := TaintLevel.pymax existing.taint_level level }
          st.tainted_data_registry
    | none =>
        upsert data_hash ⟨data_hash, [source], level, []⟩
          st.tainted_data_registry
  let flows := sessionTrack session_id? ("SOURCE:" ++ source_path) st.session_flows
  ({ st with tainted_data_registry := registry, session_flows := flows },
   data_hash)

/-- Method `propagate_taint`: if the input fingerprint is tracked, the output
fingerprint's entry is set (overwriting any existing entry) to the
input's sources and taint level, with the tool appended to the
propagation path; otherwise the tracker is untouched. -/
def propagateTaint (st : TrackerState) (input_hash output_hash tool_name : String)
    (session_id? : Option String) : TrackerState × Option String :=
  match alookup input_hash st.tainted_data_registry with
  | none => (st, none)
  | some input_tainted =>
      let output_tainted : TaintedData :=
        ⟨output_hash, input_tainted.sources, input_tainted.taint_level,
         input_tainted.propagation_path ++ [tool_name]⟩
      let registry := upsert output_hash output_tainted st.tainted_data_registry
      let flows :=
        sessionTrack session_id? ("PROPAGATE:" ++ tool_name) st.session_flows
      ({ st with tainted_data_registry := registry, session_flows := flows },
       some output_hash)

/-- Method `_is_external_endpoint`: external iff none of the six literal
internal patterns occurs as a substring of the destination. -/
def isExternalEndpoint (destination : String) : Bool :=
  !(["localhost", "127.0.0.1", "::1", "10.", "192.168.", "172.16."].any
      (fun p => strContains destination p))

/-- Default source used to model Python's `sources[0]` (the registry
only ever holds entries with nonempty sources in reachable states). -/
def defaultSource : TaintSource := ⟨"", "", "", .CLEAN⟩

/-- Method `_check_policy`: the sequential policy rules of the tracker. -/
def checkPolicy (tainted : TaintedData) (sink_type : SinkType)
    (sink_destination : String) : Option FlowViolation :=
  let taint_level := tainted.taint_level
  let src := tainted.sources.headD defaultSource
  if sink_type = SinkType.NETWORK ∧ isExternalEndpoint sink_destination = true ∧
      (taint_level = .CRITICAL ∨ taint_level = .HIGH) then
    some ⟨"tainted_data_to_external_network", src, sink_type, sink_destination,
      taint_level, true,
      taint_level.name ++ " tainted data (" ++ src.path ++
        ") cannot flow to external endpoint (" ++ sink_destination ++ ")"⟩
  else if sink_type = SinkType.NETWORK ∧ taint_level = .CRITICAL then
    some ⟨"critical_data_to_network", src, sink_type, sink_destination,
      taint_level, true,
      "CRITICAL tainted data (" ++ src.path ++
        ") cannot flow to any network endpoint"⟩
  else if sink_type = SinkType.PROCESS ∧
      (taint_level = .HIGH ∨ taint_level = .MEDIUM) then
    some ⟨"tainted_data_to_process", src, sink_type, sink_destination,
      taint_level, true,
      taint_level.name ++ " tainted data cannot be used in process execution"⟩
  else if sink_type = SinkType.FILESYSTEM then
    if strContains sink_destination "/workspace/" = true ∨
        strStarts sink_destination "./" = true then
      none
    else if ["/etc/", "/sys/", "/proc/", "/bin/", "/usr/"].any
        (fun d => strContains sink_destination d) then
      some ⟨"tainted_data_to_system_file", src, sink_type, sink_destination,
        taint_level, true,
        "Tainted data cannot be written to system directory"⟩
    else none
  else none

/-- Method `check_flow`: untracked data is allowed outright; tracked data is
checked against `_check_policy`, violations are appended to the
tracker's violation log and session flows. -/
def checkFlow (st : TrackerState) (data_hash : String) (sink_type : SinkType)
    (sink_destination : String) (session_id? : Option String) :
    TrackerState × FlowCheckResult :=
  match alookup data_hash st.tainted_data_registry with
  | none =>
      (st, ⟨true, [], .CLEAN, [], some "Data is not tainted"⟩)
  | some tainted =>
      match checkPolicy tainted sink_type sink_destination with
      | some violation =>
          let st1 : TrackerState :=
            { st with
                flow_violations := st.flow_violations ++ [violation],
                session_flows :=
                  sessionTrack session_id?
                    ("VIOLATION:" ++ sink_type.valueStr ++ ":" ++ sink_destination)
                    st.session_flows }
          (st1, ⟨false, [violation], tainted.taint_level, tainted.sources,
            some violation.reason⟩)
      | none =>
          let st1 : TrackerState :=
            { st with
                session_flows :=
                  sessionTrack session_id?
                    ("SINK:" ++ sink_type.valueStr ++ ":" ++ sink_destination)
                    st.session_flows }
          (st1, ⟨true, [], tainted.taint_level, tainted.sources,
            some "Flow allowed by policy"⟩)

/-- The two mutating tracker operations the monotonicity claims range over. -/
inductive TrackerOp
  | mark (data_hash source_path source_type : String)
      (taint_level? : Option TaintLevel) (session_id? : Option String)
  | propagate (input_hash output_hash tool_name : String)
      (session_id? : Option String)

/-- One tracker operation applied to a state. -/
def applyOp (st : TrackerState) : TrackerOp → TrackerState
  | .mark dh sp ty lv sid => (markTainted st dh sp ty lv sid).1
  | .propagate ih oh tn sid => (propagateTaint st ih oh tn sid).1

/-- A sequence of tracker operations applied from a state. -/
def runOps (st : TrackerState) (ops : List TrackerOp) : TrackerState :=
  ops.foldl applyOp st

/-- The taint level stored for a fingerprint, if tracked. -/
def taintLevelOf (st : TrackerState) (fp : String) : Option TaintLevel :=
  (alookup fp st.tainted_data_registry).map (·.taint_level)

/-! ### Specification-side network classification (for the refinement
claim about `check_flow`). These definitions follow the SPEC's words —
"loopback, RFC1918, and a configurable private-range list are internal;
everything else is external" — and are compared against the code's
`_is_external_endpoint`. -/

/-- Split a character list at the dots, for dotted-quad parsing. -/
def splitDots : List Char → List (List Char)
  | [] => [[]]
  | c :: t =>
      let r := splitDots t
      if c = '.' then [] :: r
      else
        match r with
        | [] => [[c]]
        | h :: t2 => (c :: h) :: t2

/-- Parse a nonempty all-digit character list as a decimal number. -/
def parseDecimal (cs : List Char) : Option Nat :=
  if cs ≠ [] ∧ cs.all (·.isDigit) then
    some (cs.foldl (fun n c => n * 10 + (c.toNat - 48)) 0)
  else none

/-- Parse a dotted-quad IPv4 address with octets in range. -/
def parseIPv4 (s : String) : Option (Nat × Nat × Nat × Nat) :=
  match (splitDots s.toList).mapM parseDecimal with
  | some [a, b, c, d] =>
      if a ≤ 255 ∧ b ≤ 255 ∧ c ≤ 255 ∧ d ≤ 255 then some (a, b, c, d) else none
  | _ => none

/-- Spec-side: the destination is an RFC1918 private address
(10.0.0.0/8, 172.16.0.0/12, 192.168.0.0/16). -/
def specIsRFC1918 (s : String) : Bool :=
  match parseIPv4 s with
  | some (a, b, _, _) =>
      decide (a = 10 ∨ (a = 172 ∧ 16 ≤ b ∧ b ≤ 31) ∨ (a = 192 ∧ b = 168))
  | none => false

/-- Spec-side: the destination is loopback. -/
def specIsLoopback (s : String) : Bool :=
  s = "localhost" || s = "::1" ||
    (match parseIPv4 s with
     | some (a, _, _, _) => decide (a = 127)
     | none => false)

/-- Spec-side: internal precisely when loopback, RFC1918, or listed in
the configured private-range list; external otherwise. -/
def specInternalEndpoint (privateRanges : List String) (s : String) : Bool :=
  specIsLoopback s || specIsRFC1918 s || privateRanges.contains s

/-- The code's fixed internal-pattern list, playing the role of the
"configured private-range list" when the spec-side classifier is
instantiated for this program. -/
def codeInternalPatterns : List String :=
  ["localhost", "127.0.0.1", "::1", "10.", "192.168.", "172.16."]

/-- The deny rows of the claimed policy matrix for `check_flow`,
formalised from the claim's words (with the spec-side notion of
internal/external endpoints). -/
def specDenyC2 (ranges : List String) (level : TaintLevel) (sink : SinkType)
    (dest : String) : Prop :=
  (sink = SinkType.NETWORK ∧ level = .CRITICAL) ∨
  (sink = SinkType.NETWORK ∧ specInternalEndpoint ranges dest = false ∧
    (level = .HIGH ∨ level = .CRITICAL)) ∨
  (sink = SinkType.PROCESS ∧ (level = .HIGH ∨ level = .MEDIUM)) ∨
  (sink = SinkType.FILESYSTEM ∧ level ≠ .CLEAN ∧
    (["/etc/", "/sys/", "/proc/", "/bin/", "/usr/"].any
      (fun d => strStarts dest d)) = true)

/-- The deny condition actually implemented by `_check_policy`, written
as a flat matrix (the amended form of the policy-matrix claim). -/
def codeDeny (level : TaintLevel) (sink : SinkType) (dest : String) : Prop :=
  (sink = SinkType.NETWORK ∧
    (level = .CRITICAL ∨
      ((level = .HIGH ∨ level = .CRITICAL) ∧ isExternalEndpoint dest = true))) ∨
  (sink = SinkType.PROCESS ∧ (level = .HIGH ∨ level = .MEDIUM)) ∨
  (sink = SinkType.FILESYSTEM ∧
    ¬ (strContains dest "/workspace/" = true ∨ strStarts dest "./" = true) ∧
    (["/etc/", "/sys/", "/proc/", "/bin/", "/usr/"].any
      (fun d => strContains dest d)) = true)

/-! ### Tool router (`gateway/tool_router 2.py`) -/

/-- Dataclass `ToolInfo` (`input_schema` omitted: an opaque payload
copied verbatim and never branched on). -/
structure ToolInfo where
  name : String
  description : String
  server_id : String
  server_name : String
deriving DecidableEq

/-- An element of the `tools` list passed to `register_tools`
(a dict; `tool.get("name")` can be absent). -/
structure RawTool where
  name? : Option String
  description : String
deriving DecidableEq

/-- Mutable state of a `ToolRouter` instance. -/
structure RouterState where
  tool_map : List (String × ToolInfo)
  server_tools : List (String × List String)
deriving DecidableEq

/-- Constructor `ToolRouter.__init__`. -/
def RouterState.init : RouterState := ⟨[], []⟩

/-- Method `_rename_conflicting_tool`: moves the bare entry to
`<original_server>/<tool_name>` and fixes up the server's tool list
(`list.remove` drops the first occurrence). -/
def renameConflictingTool (st : RouterState) (tool_name original_server : String) :
    RouterState :=
  match alookup tool_name st.tool_map with
  | none => st
  | some tool_info =>
      let new_name := original_server ++ "/" ++ tool_name
      let m1 := eraseKey tool_name st.tool_map
      let m2 := upsert new_name { tool_info with name := new_name } m1
      let sid := tool_info.server_id
      let stools :=
        match alookup sid st.server_tools with
        | none => st.server_tools
        | some lst => upsert sid ((lst.erase tool_name) ++ [new_name]) st.server_tools
      ⟨m2, stools⟩

/-- One iteration of the `for tool in tools` loop of `register_tools`
(`if not tool_name: continue` also skips an empty-string name). -/
def registerOne (server_id server_name : String) (st : RouterState)
    (tool : RawTool) : RouterState :=
  match tool.name? with
  | none => st
  | some tool_name0 =>
      if tool_name0 = "" then st
      else
        let step :=
          match alookup tool_name0 st.tool_map with
          | some orig =>
              (renameConflictingTool st tool_name0 orig.server_name,
               server_name ++ "/" ++ tool_name0)
          | none => (st, tool_name0)
        let st1 := step.1
        let tool_name := step.2
        let tool_info : ToolInfo :=
          ⟨tool_name, tool.description, server_id, server_name⟩
        let m := upsert tool_name tool_info st1.tool_map
        let stools :=
          match alookup server_id st1.server_tools with
          | none => upsert server_id [tool_name] st1.server_tools
          | some lst => upsert server_id (lst ++ [tool_name]) st1.server_tools
        ⟨m, stools⟩

/-- Method `register_tools`: the loop over the tool list. -/
def registerTools (st : RouterState) (server_id server_name : String)
    (tools : List RawTool) : RouterState :=
  tools.foldl (registerOne server_id server_name) st

/-- A sequence of `register_tools` calls (server_id, server_name, tools). -/
def runRouter (st : RouterState) (regs : List (String × String × List RawTool)) :
    RouterState :=
  regs.foldl (fun s r => registerTools s r.1 r.2.1 r.2.2) st

/-! ### Detection aggregation and gateway decision
(`dynamic_detection_engine.py`, `mcp_gateway_service.py`,
`mcp_protocol_parser.py`) -/

/-- Per-technique detection result (the fields `_aggregate_results` and
the blocked response read). -/
structure DetectionResult where
  technique_id : String
  technique_name : String
  severity : String
  confidence : Rat
  matched : Bool
deriving DecidableEq

/-- Dataclass `AggregatedDetectionResult`. -/
structure AggregatedDetectionResult where
  overall_risk_level : String
  matched_techniques : List DetectionResult
  action : String
  confidence : Rat
  mitigations : List String
deriving DecidableEq

/-- The `severity_order` dict with `.get(s, 0)` defaulting. -/
def severityOrder (s : String) : Nat :=
  if s = "CRITICAL" then 4
  else if s = "HIGH" then 3
  else if s = "MEDIUM" then 2
  else if s = "LOW" then 1
  else 0

/-- Python `max(l, key=f)` starting from an initial element: keeps the
current element unless a later one has a strictly greater key, so the
first maximal element wins. -/
def pyMaxBy {α : Type} (f : α → Nat) : α → List α → α
  | a, [] => a
  | a, x :: t => pyMaxBy f (if f a < f x then x else a) t

/-- Method `_aggregate_results`; `techMitigations` models
`self.techniques.get(id, {}).get("mitigations", [])`; `list(set(...))`
is modelled by `dedup` (CPython's set iteration order is unspecified and
no verified property depends on the order). -/
def aggregateResults (techMitigations : String → List String)
    (ms : List DetectionResult) : AggregatedDetectionResult :=
  match ms with
  | [] => ⟨"NONE", [], "ALLOW", 1, []⟩
  | m :: rest =>
      let max_severity := pyMaxBy (fun m2 => severityOrder m2.severity) m rest
      let overall_risk := max_severity.severity
      let action :=
        if overall_risk = "CRITICAL" ∨ overall_risk = "HIGH" then "BLOCK"
        else if overall_risk = "MEDIUM" then "LOG"
        else "ALLOW"
      let avg_confidence :=
        ((ms.map (·.confidence)).sum) / ((ms.length : Rat))
      let mitigations :=
        ((ms.map (fun mm => techMitigations mm.technique_id)).flatten).dedup
      ⟨overall_risk, ms, action, avg_confidence, mitigations⟩

/-- The `MCPErrorCode` constants. -/
def PARSE_ERROR : Int := -32700
/-- JSON-RPC invalid request error code. -/
def INVALID_REQUEST : Int := -32600
/-- JSON-RPC method-not-found error code. -/
def METHOD_NOT_FOUND : Int := -32601
/-- JSON-RPC invalid params error code. -/
def INVALID_PARAMS : Int := -32602
/-- JSON-RPC internal error code. -/
def INTERNAL_ERROR : Int := -32603
/-- MCP tool-not-found error code. -/
def TOOL_NOT_FOUND : Int := -32000
/-- MCP tool-execution error code. -/
def TOOL_EXECUTION_ERROR : Int := -32001
/-- MCP resource-not-found error code. -/
def RESOURCE_NOT_FOUND : Int := -32002
/-- MCP resource-access-denied error code. -/
def RESOURCE_ACCESS_DENIED : Int := -32003
/-- MCP security-violation error code, used for blocked requests. -/
def SECURITY_VIOLATION : Int := -32004
/-- MCP rate-limit error code. -/
def RATE_LIMIT_EXCEEDED : Int := -32005

/-- The `error.data` payload of a blocked response. -/
structure BlockedData where
  risk_level : String
  matched_techniques : List String
  confidence : Rat
  mitigations : List String
deriving DecidableEq

/-- The single MCP response `handle_request` returns on its decision
step: a `-32004` error for BLOCK, a success envelope otherwise. -/
inductive GatewayResponse
  | blocked (id : String) (code : Int) (message : String) (data : BlockedData)
  | allowed (id : String) (risk_level : String)
deriving DecidableEq

/-- Method `_create_blocked_response`: one error response with code
`SECURITY_VIOLATION` and the four-field data payload. -/
def createBlockedResponse (msg_id : String) (dr : AggregatedDetectionResult) :
    GatewayResponse :=
  let techniques_str :=
    String.intercalate ", "
      (dr.matched_techniques.map
        (fun t => t.technique_id ++ " (" ++ t.technique_name ++ ")"))
  GatewayResponse.blocked msg_id SECURITY_VIOLATION
    ("Request blocked - Security violation detected: " ++ techniques_str)
    ⟨dr.overall_risk_level, dr.matched_techniques.map (·.technique_id),
     dr.confidence, dr.mitigations⟩

/-- Method `_create_allowed_response` (the fields the claims read). -/
def createAllowedResponse (msg_id : String) (dr : AggregatedDetectionResult) :
    GatewayResponse :=
  GatewayResponse.allowed msg_id dr.overall_risk_level

/-- Step 5 of `handle_request`: the allow/block decision on the
aggregated detection result, returning exactly one response. -/
def handleDecision (msg_id : String) (dr : AggregatedDetectionResult) :
    GatewayResponse :=
  if dr.action = "BLOCK" then createBlockedResponse msg_id dr
  else createAllowedResponse msg_id dr

/-! ### Pattern matcher (`engine/pattern_matcher.py`) -/

/-- Pydantic model `PatternResult`. -/
structure PatternResult where
  triggered : Bool
  confidence : Rat
  patterns_matched : List String
deriving DecidableEq

/-- Python `min(a, b)` on two numbers (keeps the first on ties). -/
def pymin (a b : Rat) : Rat := if a ≤ b then a else b

/-- Method `PatternMatcher.match`; `regexSearch p text` models
`re.search(compiled p, text)`; a pattern whose compilation raises
`re.error` never fires (the `except ... continue` path appends
nothing). -/
def pmatch (regexSearch : String → String → Bool) (text : String)
    (patterns : List String) : PatternResult :=
  if patterns = [] then ⟨false, 0, []⟩
  else
    let matched_patterns := patterns.filter (fun p => regexSearch p text)
    if matched_patterns = [] then ⟨false, 0, []⟩
    else
      ⟨true,
       pymin (95/100 + ((matched_patterns.length : Rat) - 1) * (5/100)) 1,
       matched_patterns⟩

/-! ### Execution isolation (`isolation/execution_isolation.py`) -/

/-- Enum `ToolCapability`. -/
inductive ToolCapability
  | FILE_READ
  | FILE_WRITE
  | FILE_LIST
  | NETWORK_HTTP
  | NETWORK_SOCKET
  | PROCESS_SPAWN
  | SYSTEM_INFO
  | DATABASE_READ
  | DATABASE_WRITE
deriving DecidableEq

/-- The `.value` string of each capability. -/
def ToolCapability.valueStr : ToolCapability → String
  | .FILE_READ => "file_read"
  | .FILE_WRITE => "file_write"
  | .FILE_LIST => "file_list"
  | .NETWORK_HTTP => "network_http"
  | .NETWORK_SOCKET => "network_socket"
  | .PROCESS_SPAWN => "process_spawn"
  | .SYSTEM_INFO => "system_info"
  | .DATABASE_READ => "database_read"
  | .DATABASE_WRITE => "database_write"

/-- The required-capability set `_check_capabilities` infers from the
tool name (a Python set built by at most one add per rule, listed in
rule order). -/
def requiredCapabilities (tool_name : String) : List ToolCapability :=
  let tool_lower := lowerStr tool_name
  (if (["read", "get", "load"].any (fun k => strContains tool_lower k)) = true
    then [ToolCapability.FILE_READ] else []) ++
  (if (["write", "create", "update"].any (fun k => strContains tool_lower k)) = true
    then [ToolCapability.FILE_WRITE] else []) ++
  (if (["http", "network", "api"].any (fun k => strContains tool_lower k)) = true
    then [ToolCapability.NETWORK_HTTP] else []) ++
  (if (["exec", "run", "command"].any (fun k => strContains tool_lower k)) = true
    then [ToolCapability.PROCESS_SPAWN] else [])

/-- Method `_check_capabilities`: one violation entry when some required
capability is missing from the policy's `allowed_capabilities`. -/
def checkCapabilities (tool_name : String) (allowed : List ToolCapability) :
    List String :=
  let missing :=
    (requiredCapabilities tool_name).filter (fun c => ¬ (c ∈ allowed))
  if missing = [] then []
  else
    ["Tool requires capabilities " ++
      String.intercalate ", " (missing.map ToolCapability.valueStr) ++
      " not granted by policy"]

/-- Method `validate_call_against_policy`, success flag: the filesystem,
network and resource checks are passed in as their violation lists
(their path/url inspection is orthogonal to the capability claim);
the call is rejected iff any violation list is nonempty. -/
def validateCallSuccess (other_violations : List String) (tool_name : String)
    (allowed : List ToolCapability) : Bool :=
  (other_violations ++ checkCapabilities tool_name allowed) = []

/-! ### Adaptive policy engine (`adaptive/adaptive_policy_engine.py`) -/

/-- The `global_stats` dict. -/
structure AdaptiveStats where
  total_decisions : Nat
  adaptations_applied : Nat
  false_positives_prevented : Nat
deriving DecidableEq

/-- Dict `global_stats` as initialised in `__init__`. -/
def AdaptiveStats.init : AdaptiveStats := ⟨0, 0, 0⟩

/-- The statistics updates of one `adapt_decision` call. `adjs` is the
list of nonzero adjustments appended by the five adjustment rules (the
`adjustments` list); `total_adjustment` is their sum. Returns the new
stats and the `allow` decision. -/
def adaptDecisionStats (stats : AdaptiveStats) (base_risk : Rat)
    (adjs : List Rat) : AdaptiveStats × Bool :=
  let stats1 := { stats with total_decisions := stats.total_decisions + 1 }
  let total_adjustment := adjs.sum
  let adjusted_risk := max 0 (min 1 (base_risk + total_adjustment))
  let allow : Bool := decide (adjusted_risk < 7/10)
  let stats2 :=
    if adjs ≠ [] then
      { stats1 with adaptations_applied := stats1.adaptations_applied + 1 }
    else stats1
  let stats3 :=
    if ¬ allow = true ∧ base_risk ≥ 7/10 ∧ adjusted_risk < 7/10 then
      { stats2 with
          false_positives_prevented := stats2.false_positives_prevented + 1 }
    else stats2
  (stats3, allow)

/-- A sequence of `adapt_decision` calls, each given by its base risk
and its nonzero adjustments. -/
def runAdaptive (stats : AdaptiveStats) (calls : List (Rat × List Rat)) :
    AdaptiveStats :=
  calls.foldl (fun s c => (adaptDecisionStats s c.1 c.2).1) stats

/-! ### Association-list lemmas -/

theorem alookup_upsert_self {β : Type} (k : String) (v : β)
    (l : List (String × β)) : alookup k (upsert k v l) = some v := by
  induction l with
  | nil => simp [upsert, alookup]
  | cons hd t ih =>
      obtain ⟨k1, v1⟩ := hd
      by_cases hk : k1 = k
      · subst hk; simp [upsert, alookup]
      · simp [upsert, alookup, hk, ih]

theorem alookup_upsert_ne {β : Type} {k2 k : String} (h : k2 ≠ k) (v : β)
    (l : List (String × β)) : alookup k2 (upsert k v l) = alookup k2 l := by
  induction l with
  | nil => simp [upsert, alookup, Ne.symm h]
  | cons hd t ih =>
      obtain ⟨k1, v1⟩ := hd
      by_cases hk : k1 = k
      · have h1 : ¬ k = k2 := fun hc => h hc.symm
        have h2 : ¬ k1 = k2 := fun hc => h1 (hk ▸ hc)
        simp only [upsert, if_pos hk, alookup, if_neg h1, if_neg h2]
      · by_cases hk2 : k1 = k2
        · simp only [upsert, if_neg hk, alookup, if_pos hk2]
        · simp only [upsert, if_neg hk, alookup, if_neg hk2, ih]

theorem alookup_eq_none_of_not_mem {β : Type} {k : String}
    {l : List (String × β)} (h : k ∉ l.map Prod.fst) : alookup k l = none := by
  induction l with
  | nil => rfl
  | cons hd t ih =>
      obtain ⟨k1, v1⟩ := hd
      simp only [List.map_cons, List.mem_cons] at h
      push_neg at h
      have h1 : ¬ k1 = k := fun hc => h.1 hc.symm
      simp [alookup, h1, ih h.2]

theorem alookup_eraseKey_self {β : Type} {k : String} {l : List (String × β)}
    (h : (l.map Prod.fst).Nodup) : alookup k (eraseKey k l) = none := by
  induction l with
  | nil => rfl
  | cons hd t ih =>
      obtain ⟨k1, v1⟩ := hd
      simp only [List.map, List.nodup_cons] at h
      by_cases hk : k1 = k
      · subst hk
        simp only [eraseKey, if_pos rfl]
        exact alookup_eq_none_of_not_mem h.1
      · simp [eraseKey, hk, alookup, ih h.2]

theorem alookup_eraseKey_ne {β : Type} {k2 k : String} (h : k2 ≠ k)
    (l : List (String × β)) : alookup k2 (eraseKey k l) = alookup k2 l := by
  induction l with
  | nil => rfl
  | cons hd t ih =>
      obtain ⟨k1, v1⟩ := hd
      by_cases hk : k1 = k
      · have h1 : ¬ k = k2 := fun hc => h hc.symm
        have h2 : ¬ k1 = k2 := fun hc => h1 (hk ▸ hc)
        simp only [eraseKey, if_pos hk, alookup, if_neg h2]
      · by_cases hk2 : k1 = k2
        · simp only [eraseKey, if_neg hk, alookup, if_pos hk2]
        · simp only [eraseKey, if_neg hk, alookup, if_neg hk2, ih]

/-! ### Order lemmas for taint levels and Python max -/

theorem TaintLevel.le_pymax_left (a b : TaintLevel) :
    TaintLevel.le a (TaintLevel.pymax a b) := by
  cases a <;> cases b <;> decide

theorem TaintLevel.le_rfl (a : TaintLevel) : TaintLevel.le a a := by
  cases a <;> decide

theorem pyMaxBy_mem {α : Type} (f : α → Nat) (a : α) (l : List α) :
    pyMaxBy f a l = a ∨ pyMaxBy f a l ∈ l := by
  induction l generalizing a with
  | nil => exact Or.inl rfl
  | cons x t ih =>
      simp only [pyMaxBy]
      rcases ih (if f a < f x then x else a) with h | h
      · rw [h]
        by_cases hc : f a < f x
        · simp [hc]
        · simp [hc]
      · exact Or.inr (List.mem_cons_of_mem _ h)

theorem pyMaxBy_le {α : Type} (f : α → Nat) (a : α) (l : List α) :
    f a ≤ f (pyMaxBy f a l) ∧ ∀ x ∈ l, f x ≤ f (pyMaxBy f a l) := by
  induction l generalizing a with
  | nil => exact ⟨Nat.le_refl _, by simp⟩
  | cons y t ih =>
      simp only [pyMaxBy]
      have h := ih (if f a < f y then y else a)
      have hstep : f a ≤ f (if f a < f y then y else a) ∧
          f y ≤ f (if f a < f y then y else a) := by
        by_cases hc : f a < f y <;> simp [hc] <;> omega
      refine ⟨le_trans hstep.1 h.1, ?_⟩
      intro x hx
      rcases List.mem_cons.mp hx with hxy | hxt
      · subst hxy; exact le_trans hstep.2 h.1
      · exact h.2 x hxt

/-! ### Claim C1 — taint-level monotonicity of the tracker -/

/-- Registration sequence used to exhibit the taint decrease:
fingerprint `A` is marked CRITICAL (`password` source), fingerprint `B`
is marked LOW (`internal` source). -/
def opsC1 : List TrackerOp :=
  [.mark "A" "/x/password" "file" none none,
   .mark "B" "/x/internal" "file" none none]

/-- C1 counterexample: in the reachable state where `A` is tracked at
CRITICAL and `B` at LOW, `propagate_taint` from `B` to `A` overwrites
`A`'s registry entry and lowers its stored level from CRITICAL to LOW,
so the claimed non-decrease of tracked levels over mark/propagate
sequences is false. -/
theorem C1_counterexample :
    taintLevelOf (runOps TrackerState.init opsC1) "A" = some TaintLevel.CRITICAL ∧
    taintLevelOf (applyOp (runOps TrackerState.init opsC1)
      (.propagate "B" "A" "t" none)) "A" = some TaintLevel.LOW ∧
    ¬ TaintLevel.le TaintLevel.CRITICAL TaintLevel.LOW := by
  decide

/-- C1 amended: `mark_tainted` never lowers the stored level of any
tracked fingerprint; `propagate_taint` leaves every fingerprint other
than the output's untouched, but overwrites the output fingerprint's
entry with exactly the input's taint level (which may be lower than a
previously stored one). -/
theorem C1_amended :
    (∀ (st : TrackerState) (dh sp ty : String) (lv : Option TaintLevel)
       (sid : Option String) (fp : String) (l : TaintLevel),
       taintLevelOf st fp = some l →
       ∃ l2, taintLevelOf (markTainted st dh sp ty lv sid).1 fp = some l2 ∧
         TaintLevel.le l l2) ∧
    (∀ (st : TrackerState) (ih oh tn : String) (sid : Option String)
       (fp : String), fp ≠ oh →
       taintLevelOf (propagateTaint st ih oh tn sid).1 fp = taintLevelOf st fp) ∧
    (∀ (st : TrackerState) (ih oh tn : String) (sid : Option String)
       (td : TaintedData), alookup ih st.tainted_data_registry = some td →
       taintLevelOf (propagateTaint st ih oh tn sid).1 oh = some td.taint_level) := by
  refine ⟨?_, ?_, ?_⟩
  · intro st dh sp ty lv sid fp l hl
    simp only [markTainted, taintLevelOf] at hl ⊢
    by_cases hfp : fp = dh
    · subst hfp
      cases hreg : alookup fp st.tainted_data_registry with
      | none => rw [hreg] at hl; simp at hl
      | some existing =>
          have hlev : existing.taint_level = l := by
            rw [hreg] at hl; simpa using hl
          dsimp only
          refine ⟨TaintLevel.pymax existing.taint_level
            (lv.getD (identifySourceSensitivity sp)), ?_, ?_⟩
          · rw [alookup_upsert_self]
            rfl
          · rw [← hlev]
            exact TaintLevel.le_pymax_left existing.taint_level _
    · cases hreg : alookup dh st.tainted_data_registry with
      | none =>
          dsimp only
          simp only [alookup_upsert_ne hfp]
          exact ⟨l, hl, TaintLevel.le_rfl l⟩
      | some existing =>
          dsimp only
          simp only [alookup_upsert_ne hfp]
          exact ⟨l, hl, TaintLevel.le_rfl l⟩
  · intro st ih oh tn sid fp hfp
    simp only [propagateTaint, taintLevelOf]
    cases hreg : alookup ih st.tainted_data_registry with
    | none => rfl
    | some input_tainted => simp only [alookup_upsert_ne hfp]
  · intro st ih oh tn sid td hreg
    simp only [propagateTaint, taintLevelOf, hreg]
    rw [alookup_upsert_self]
    rfl

/-- Tracked state for the C1 witness: `A` at LOW. -/
def stW1 : TrackerState :=
  (markTainted TrackerState.init "A" "/x/internal" "file" none none).1

/-- C1 witness: all three parts of the amended statement at concrete
inputs on a reachable state. -/
theorem C1_amended_witness :
    (∃ l2, taintLevelOf (markTainted stW1 "A" "/y" "file" none none).1 "A" =
        some l2 ∧ TaintLevel.le TaintLevel.LOW l2) ∧
    taintLevelOf (propagateTaint stW1 "A" "B" "t" none).1 "C" =
      taintLevelOf stW1 "C" ∧
    taintLevelOf (propagateTaint stW1 "A" "B" "t" none).1 "B" =
      some TaintLevel.LOW :=
  ⟨C1_amended.1 stW1 "A" "/y" "file" none none "A" TaintLevel.LOW (by decide),
   C1_amended.2.1 stW1 "A" "B" "t" none "C" (by decide),
   C1_amended.2.2 stW1 "A" "B" "t" none
     ⟨"A", [⟨"file:/x/internal", "file", "/x/internal", .LOW⟩], .LOW, []⟩
     (by decide)⟩

/-! ### Claim C9 — clean values and the registry -/

/-- C9 counterexample: `/tmp/x.txt` resolves to CLEAN sensitivity, yet
`mark_tainted` on it adds a registry entry (at level CLEAN), so clean
values are tracked, contradicting the claim. -/
theorem C9_counterexample :
    identifySourceSensitivity "/tmp/x.txt" = TaintLevel.CLEAN ∧
    taintLevelOf (runOps TrackerState.init
      [.mark "A" "/tmp/x.txt" "file" none none]) "A" = some TaintLevel.CLEAN := by
  decide

/-- C9 amended: `mark_tainted` tracks every marked value, CLEAN ones
included: on an untracked fingerprint, with no explicit level, it adds a
registry entry at exactly the resolved source sensitivity (so registry
entries of level CLEAN occur). -/
theorem C9_amended :
    ∀ (st : TrackerState) (dh sp ty : String) (sid : Option String),
      alookup dh st.tainted_data_registry = none →
      taintLevelOf (markTainted st dh sp ty none sid).1 dh =
        some (identifySourceSensitivity sp) := by
  intro st dh sp ty sid h
  simp only [markTainted, taintLevelOf, h]
  rw [alookup_upsert_self]
  rfl

/-- C9 witness: the amended statement at a concrete CLEAN source. -/
theorem C9_amended_witness :
    taintLevelOf (markTainted TrackerState.init "A" "/tmp/x.txt" "file"
      none none).1 "A" = some (identifySourceSensitivity "/tmp/x.txt") :=
  C9_amended TrackerState.init "A" "/tmp/x.txt" "file" none (by decide)

/-! ### Claim C5 — check_flow purity -/

/-- Tracked state for the C5 counterexample: `D` at CRITICAL. -/
def stC5 : TrackerState :=
  (markTainted TrackerState.init "D" "/k/secret" "file" none none).1

/-- C5 counterexample: `check_flow` on a violating flow appends to the
tracker's `flow_violations` log, so it is not side-effect-free on the
tracker state. -/
theorem C5_counterexample :
    stC5.flow_violations.length = 0 ∧
    ((checkFlow stC5 "D" SinkType.NETWORK "http://evil.example/x" none).1
      ).flow_violations.length = 1 ∧
    (checkFlow stC5 "D" SinkType.NETWORK "http://evil.example/x" none).1 ≠ stC5 := by
  decide

/-- Results of `check_flow` depend only on the taint registry. -/
theorem checkFlow_snd_congr (st1 st2 : TrackerState) (dh : String)
    (sink : SinkType) (dest : String) (sid : Option String)
    (h : st1.tainted_data_registry = st2.tainted_data_registry) :
    (checkFlow st1 dh sink dest sid).2 = (checkFlow st2 dh sink dest sid).2 := by
  simp only [checkFlow, h]
  cases alookup dh st2.tainted_data_registry with
  | none => rfl
  | some tainted =>
      dsimp only
      cases checkPolicy tainted sink dest <;> rfl

/-- C5 amended: `check_flow` never modifies the tainted-data registry
(though it may append to the violation log and session flows), and two
consecutive calls with identical inputs return identical results. -/
theorem C5_amended :
    ∀ (st : TrackerState) (dh : String) (sink : SinkType) (dest : String)
      (sid : Option String),
      (checkFlow st dh sink dest sid).1.tainted_data_registry =
        st.tainted_data_registry ∧
      (checkFlow (checkFlow st dh sink dest sid).1 dh sink dest sid).2 =
        (checkFlow st dh sink dest sid).2 := by
  intro st dh sink dest sid
  have hreg : (checkFlow st dh sink dest sid).1.tainted_data_registry =
      st.tainted_data_registry := by
    simp only [checkFlow]
    cases alookup dh st.tainted_data_registry with
    | none => rfl
    | some tainted =>
        dsimp only
        cases checkPolicy tainted sink dest <;> rfl
  exact ⟨hreg, checkFlow_snd_congr _ _ _ _ _ _ hreg⟩

/-! ### Claim C2 — the check_flow policy matrix -/

instance (r : List String) (l : TaintLevel) (s : SinkType) (d : String) :
    Decidable (specDenyC2 r l s d) := by
  unfold specDenyC2; infer_instance

instance (l : TaintLevel) (s : SinkType) (d : String) :
    Decidable (codeDeny l s d) := by
  unfold codeDeny; infer_instance

/-- Method `_check_policy` returns no violation exactly when the flat deny
matrix it implements does not fire. -/
theorem checkPolicy_none_iff (td : TaintedData) (sink : SinkType)
    (dest : String) :
    checkPolicy td sink dest = none ↔ ¬ codeDeny td.taint_level sink dest := by
  rcases td with ⟨dh0, srcs, lvl, pp⟩
  cases sink <;> cases lvl <;>
    simp only [checkPolicy, codeDeny] <;>
    by_cases hext : isExternalEndpoint dest = true <;>
    by_cases hws : (strContains dest "/workspace/" = true ∨
      strStarts dest "./" = true) <;>
    by_cases hsys : (["/etc/", "/sys/", "/proc/", "/bin/", "/usr/"].any
      (fun d => strContains dest d)) = true <;>
    simp [hext, hws, hsys]

/-- Method `check_flow` on a tracked fingerprint allows exactly when the
implemented deny matrix does not fire. -/
theorem checkFlow_allowed_iff (st : TrackerState) (dh : String)
    (sink : SinkType) (dest : String) (sid : Option String) (td : TaintedData)
    (h : alookup dh st.tainted_data_registry = some td) :
    ((checkFlow st dh sink dest sid).2.allowed = true ↔
      ¬ codeDeny td.taint_level sink dest) := by
  simp only [checkFlow, h]
  cases hcp : checkPolicy td sink dest with
  | some violation =>
      have hd : codeDeny td.taint_level sink dest := by
        by_contra hnd
        have hnone := (checkPolicy_none_iff td sink dest).mpr hnd
        rw [hcp] at hnone
        exact Option.noConfusion hnone
      simp [hd]
  | none =>
      have hnd := (checkPolicy_none_iff td sink dest).mp hcp
      simp [hnd]

/-- Tracked state for the C2 counterexample: `D` at HIGH (source
`/app/.env`). -/
def stC2 : TrackerState :=
  (markTainted TrackerState.init "D" "/app/.env" "file" none none).1

/-- The registry entry `stC2` holds for `D`. -/
def tdC2 : TaintedData :=
  ⟨"D", [⟨"file:/app/.env", "file", "/app/.env", .HIGH⟩], .HIGH, []⟩

/-- C2 counterexample: the destination `172.17.0.1` is an RFC1918
address, hence internal per the claim's classification, so the claimed
matrix does not deny a HIGH-tainted flow to it; the code classifies it
as external (only the literal substring `172.16.` is internal) and
denies the flow. The claimed equivalence between `check_flow` and the
spec's policy matrix is therefore false. -/
theorem C2_counterexample :
    ¬ (∀ (st : TrackerState) (dh : String) (sink : SinkType) (dest : String)
         (sid : Option String) (td : TaintedData),
        alookup dh st.tainted_data_registry = some td →
        ((checkFlow st dh sink dest sid).2.allowed = true ↔
          ¬ specDenyC2 codeInternalPatterns td.taint_level sink dest)) := by
  intro hclaim
  have h2 := (hclaim stC2 "D" SinkType.NETWORK "172.17.0.1" none tdC2
    (by decide)).mpr (by decide)
  have h3 : (checkFlow stC2 "D" SinkType.NETWORK "172.17.0.1" none).2.allowed
      = false := by decide
  rw [h2] at h3
  simp at h3

/-- C2 amended: `check_flow` decides per the matrix actually
implemented: an untracked value is allowed at any sink; a tracked value
is allowed iff no deny row fires, where the deny rows are those of
`_check_policy` — CRITICAL to any NETWORK; HIGH or CRITICAL to a
NETWORK destination not containing one of the six literal internal
substrings (so e.g. `172.17.0.1` counts as external); HIGH or MEDIUM to
PROCESS; and FILESYSTEM destinations that neither contain `/workspace/`
nor start with `./` but contain a system-directory substring (any taint
level, CLEAN included). -/
theorem C2_amended :
    ∀ (st : TrackerState) (dh : String) (sink : SinkType) (dest : String)
      (sid : Option String),
      (∀ td, alookup dh st.tainted_data_registry = some td →
        ((checkFlow st dh sink dest sid).2.allowed = true ↔
          ¬ codeDeny td.taint_level sink dest)) ∧
      (alookup dh st.tainted_data_registry = none →
        (checkFlow st dh sink dest sid).2.allowed = true) := by
  intro st dh sink dest sid
  refine ⟨fun td h => checkFlow_allowed_iff st dh sink dest sid td h,
    fun h => ?_⟩
  simp only [checkFlow, h]

/-- C2 witness: the amended statement at a tracked HIGH entry flowing
to an external network destination, and at an untracked value. -/
theorem C2_amended_witness :
    ((checkFlow stC2 "D" SinkType.NETWORK "203.0.113.9" none).2.allowed = true ↔
      ¬ codeDeny tdC2.taint_level SinkType.NETWORK "203.0.113.9") ∧
    (checkFlow TrackerState.init "X" SinkType.NETWORK "203.0.113.9"
      none).2.allowed = true :=
  ⟨(C2_amended stC2 "D" SinkType.NETWORK "203.0.113.9" none).1 tdC2 (by decide),
   (C2_amended TrackerState.init "X" SinkType.NETWORK "203.0.113.9" none).2
     (by decide)⟩

/-! ### Claim C4 — tool-name conflicts in the router -/

/-- Two servers register the tool name `foo`: the conflict is detected
on the second registration. -/
def regsC4two : List (String × String × List RawTool) :=
  [("sidA", "A", [⟨some "foo", "dA"⟩]), ("sidB", "B", [⟨some "foo", "dB"⟩])]

/-- The same sequence followed by a third server registering `foo`. -/
def regsC4three : List (String × String × List RawTool) :=
  regsC4two ++ [("sidC", "C", [⟨some "foo", "dC"⟩])]

/-- C4 counterexample: after the conflict between servers A and B the
bare name `foo` is absent and both prefixed names are present, but a
later registration of `foo` by server C sees no conflict (the bare key
is gone) and reinstates a bare-name route, so the bare name does not
stay absent in subsequently reachable states. -/
theorem C4_counterexample :
    alookup "foo" (runRouter RouterState.init regsC4two).tool_map = none ∧
    (alookup "A/foo" (runRouter RouterState.init regsC4two).tool_map).isSome
      = true ∧
    (alookup "B/foo" (runRouter RouterState.init regsC4two).tool_map).isSome
      = true ∧
    (alookup "foo" (runRouter RouterState.init regsC4three).tool_map).isSome
      = true := by
  decide

/-- A string is never equal to itself prefixed through a slash. -/
theorem ne_slash_append (a n : String) : n ≠ a ++ "/" ++ n := by
  intro h
  have hlen := congrArg String.length h
  rw [String.length_append, String.length_append] at hlen
  have hone : String.length "/" = 1 := rfl
  rw [hone] at hlen
  omega

/-- C4 amended: a registration that detects a conflict on name `n`
immediately leaves both registrations under their prefixed keys and
removes the bare key — but only for that step: a later registration of
`n` (by any server) reinstates the bare key, as the counterexample
shows. -/
theorem C4_amended :
    ∀ (st : RouterState) (sid sname n d : String) (info : ToolInfo),
      n ≠ "" →
      (st.tool_map.map Prod.fst).Nodup →
      alookup n st.tool_map = some info →
      alookup n (registerTools st sid sname [⟨some n, d⟩]).tool_map = none ∧
      (alookup (info.server_name ++ "/" ++ n)
        (registerTools st sid sname [⟨some n, d⟩]).tool_map).isSome = true ∧
      alookup (sname ++ "/" ++ n)
          (registerTools st sid sname [⟨some n, d⟩]).tool_map =
        some ⟨sname ++ "/" ++ n, d, sid, sname⟩ := by
  intro st sid sname n d info hne hnd h
  simp only [registerTools, List.foldl, registerOne, if_neg hne,
    renameConflictingTool, h]
  refine ⟨?_, ?_, ?_⟩
  · rw [alookup_upsert_ne (ne_slash_append sname n),
      alookup_upsert_ne (ne_slash_append info.server_name n)]
    exact alookup_eraseKey_self hnd
  · by_cases heq : info.server_name ++ "/" ++ n = sname ++ "/" ++ n
    · rw [heq, alookup_upsert_self]
      rfl
    · rw [alookup_upsert_ne heq, alookup_upsert_self]
      rfl
  · rw [alookup_upsert_self]

/-- Router state for the C4 witness: server A owns `foo`. -/
def stW4 : RouterState :=
  registerTools RouterState.init "sidA" "A" [⟨some "foo", "dA"⟩]

/-- C4 witness: the amended one-step conflict resolution at a concrete
reachable state. -/
theorem C4_amended_witness :
    alookup "foo" (registerTools stW4 "sidB" "B"
      [⟨some "foo", "dB"⟩]).tool_map = none ∧
    (alookup ("A" ++ "/" ++ "foo") (registerTools stW4 "sidB" "B"
      [⟨some "foo", "dB"⟩]).tool_map).isSome = true ∧
    alookup ("B" ++ "/" ++ "foo") (registerTools stW4 "sidB" "B"
        [⟨some "foo", "dB"⟩]).tool_map =
      some ⟨"B" ++ "/" ++ "foo", "dB", "sidB", "B"⟩ :=
  C4_amended stW4 "sidB" "B" "foo" "dB" ⟨"foo", "dA", "sidA", "A"⟩
    (by decide) (by decide) (by decide)

/-! ### Claim C3 — blocked requests and the -32004 response -/

/-- Method `_aggregate_results` leaves the matched list untouched. -/
theorem aggregate_matched (f : String → List String)
    (ms : List DetectionResult) :
    (aggregateResults f ms).matched_techniques = ms := by
  cases ms <;> rfl

/-- C3: whenever the aggregate decision is BLOCK, the gateway's decision
step returns exactly one response, an error with code
`SECURITY_VIOLATION = -32004` whose data payload carries the risk
level, technique ids, confidence and mitigations of the detection
result; and a BLOCK decision only arises from a non-empty matched-
technique list (so its union with any further violations is
non-empty). -/
theorem C3_blocked :
    ∀ (techMit : String → List String) (ms : List DetectionResult)
      (msg_id : String),
      (aggregateResults techMit ms).action = "BLOCK" →
      SECURITY_VIOLATION = -32004 ∧
      handleDecision msg_id (aggregateResults techMit ms) =
        GatewayResponse.blocked msg_id SECURITY_VIOLATION
          ("Request blocked - Security violation detected: " ++
            String.intercalate ", "
              ((aggregateResults techMit ms).matched_techniques.map
                (fun t => t.technique_id ++ " (" ++ t.technique_name ++ ")")))
          ⟨(aggregateResults techMit ms).overall_risk_level,
           (aggregateResults techMit ms).matched_techniques.map
             (·.technique_id),
           (aggregateResults techMit ms).confidence,
           (aggregateResults techMit ms).mitigations⟩ ∧
      (aggregateResults techMit ms).matched_techniques ≠ [] := by
  intro techMit ms msg_id hblock
  refine ⟨rfl, ?_, ?_⟩
  · simp only [handleDecision, if_pos hblock]
    rfl
  · rw [aggregate_matched]
    intro hnil
    subst hnil
    simp [aggregateResults] at hblock

/-- Matched techniques used by the C3 witness. -/
def msW3 : List DetectionResult := [⟨"T1102", "tn", "HIGH", 9/10, true⟩]

/-- C3 witness: a HIGH-severity match aggregates to BLOCK and the
theorem applies. -/
theorem C3_blocked_witness :
    (aggregateResults (fun _ => []) msW3).action = "BLOCK" ∧
    (aggregateResults (fun _ => []) msW3).matched_techniques ≠ [] :=
  ⟨by decide, (C3_blocked (fun _ => []) msW3 "id1" (by decide)).2.2⟩

/-! ### Claim C6 — the Max combiner -/

/-- C6 counterexample: a single MEDIUM match aggregates to action
`LOG`, not the claimed `WARN`. -/
theorem C6_counterexample :
    (aggregateResults (fun _ => []) [⟨"T1", "n", "MEDIUM", 1, true⟩]).action
      = "LOG" ∧
    (aggregateResults (fun _ => []) [⟨"T1", "n", "MEDIUM", 1, true⟩]).action
      ≠ "WARN" := by
  decide

/-- C6 amended: with no match the action is ALLOW at risk NONE; with
matches, the overall severity is the severity of a matched technique
maximal in the order CRITICAL > HIGH > MEDIUM > LOW (unknown severity
strings ranking lowest), and the action is BLOCK for HIGH or CRITICAL,
LOG (not WARN) for MEDIUM, and ALLOW otherwise. -/
theorem C6_amended :
    (∀ techMit : String → List String,
      (aggregateResults techMit []).action = "ALLOW" ∧
      (aggregateResults techMit []).overall_risk_level = "NONE") ∧
    (∀ (techMit : String → List String) (ms : List DetectionResult),
      ms ≠ [] →
      (∃ m, m ∈ ms ∧
        (aggregateResults techMit ms).overall_risk_level = m.severity ∧
        ∀ m2 ∈ ms, severityOrder m2.severity ≤ severityOrder m.severity) ∧
      (aggregateResults techMit ms).action =
        (if (aggregateResults techMit ms).overall_risk_level = "CRITICAL" ∨
            (aggregateResults techMit ms).overall_risk_level = "HIGH"
         then "BLOCK"
         else if (aggregateResults techMit ms).overall_risk_level = "MEDIUM"
         then "LOG" else "ALLOW")) := by
  refine ⟨fun techMit => ⟨rfl, rfl⟩, ?_⟩
  intro techMit ms hne
  cases ms with
  | nil => exact absurd rfl hne
  | cons m rest =>
      constructor
      · refine ⟨pyMaxBy (fun m2 => severityOrder m2.severity) m rest, ?_, rfl, ?_⟩
        · rcases pyMaxBy_mem (fun m2 => severityOrder m2.severity) m rest with
            hm | hm
          · rw [hm]; exact List.mem_cons_self m rest
          · exact List.mem_cons_of_mem m hm
        · intro m2 hm2
          rcases List.mem_cons.mp hm2 with hm2 | hm2
          · subst hm2
            exact (pyMaxBy_le (fun m2 => severityOrder m2.severity) m2 rest).1
          · exact (pyMaxBy_le (fun m2 => severityOrder m2.severity) m rest).2
              m2 hm2
      · rfl

/-- C6 witness: the amended statement at a concrete LOW match. -/
theorem C6_amended_witness :
    (∃ m, m ∈ [(⟨"T9", "n", "LOW", 1, true⟩ : DetectionResult)] ∧
      (aggregateResults (fun _ => [])
        [(⟨"T9", "n", "LOW", 1, true⟩ : DetectionResult)]).overall_risk_level
        = m.severity ∧
      ∀ m2 ∈ [(⟨"T9", "n", "LOW", 1, true⟩ : DetectionResult)],
        severityOrder m2.severity ≤ severityOrder m.severity) ∧
    (aggregateResults (fun _ => [])
        [(⟨"T9", "n", "LOW", 1, true⟩ : DetectionResult)]).action =
      (if (aggregateResults (fun _ => [])
            [(⟨"T9", "n", "LOW", 1, true⟩ : DetectionResult)]).overall_risk_level
            = "CRITICAL" ∨
          (aggregateResults (fun _ => [])
            [(⟨"T9", "n", "LOW", 1, true⟩ : DetectionResult)]).overall_risk_level
            = "HIGH"
       then "BLOCK"
       else if (aggregateResults (fun _ => [])
            [(⟨"T9", "n", "LOW", 1, true⟩ : DetectionResult)]).overall_risk_level
            = "MEDIUM"
       then "LOG" else "ALLOW") :=
  C6_amended.2 (fun _ => []) [⟨"T9", "n", "LOW", 1, true⟩] (by decide)

/-! ### Claim C7 — capability inference in the isolation gate -/

/-- The keyword mapping as the CLAIM words it (read/get/fetch for
FILE_READ, write/create/update/delete for FILE_WRITE), to be compared
with the implemented `requiredCapabilities`. -/
def claimRequiredCapsC7 (tool : String) : List ToolCapability :=
  (if (["read", "get", "fetch"].any
      (fun k => strContains (lowerStr tool) k)) = true
    then [ToolCapability.FILE_READ] else []) ++
  (if (["write", "create", "update", "delete"].any
      (fun k => strContains (lowerStr tool) k)) = true
    then [ToolCapability.FILE_WRITE] else [])

/-- C7 counterexample: the tool name `fetch_data` requires FILE_READ
under the claim's keyword list (it contains `fetch`), but the code's
keyword list is read/get/load, so `_check_capabilities` records no
violation even when the policy grants nothing. -/
theorem C7_counterexample :
    ¬ (∀ (tool : String) (granted : List ToolCapability),
        (checkCapabilities tool granted ≠ [] ↔
          ¬ ∀ c ∈ claimRequiredCapsC7 tool, c ∈ granted)) := by
  intro h
  exact ((h "fetch_data" []).mpr (by decide)) (by decide)

/-- C7 amended: the implemented keyword mapping is read/get/load for
FILE_READ (not fetch) and write/create/update for FILE_WRITE (no
delete); a capability violation is recorded exactly when some inferred
capability is not granted, and (with the other checks passing) the gate
rejects the call exactly then. -/
theorem C7_amended :
    ∀ (tool : String) (granted : List ToolCapability),
      (checkCapabilities tool granted ≠ [] ↔
        ∃ c ∈ requiredCapabilities tool, c ∉ granted) ∧
      (ToolCapability.FILE_READ ∈ requiredCapabilities tool ↔
        (["read", "get", "load"].any
          (fun k => strContains (lowerStr tool) k)) = true) ∧
      (ToolCapability.FILE_WRITE ∈ requiredCapabilities tool ↔
        (["write", "create", "update"].any
          (fun k => strContains (lowerStr tool) k)) = true) ∧
      (validateCallSuccess [] tool granted = false ↔
        ∃ c ∈ requiredCapabilities tool, c ∉ granted) := by
  intro tool granted
  have hfilter : ((requiredCapabilities tool).filter
        (fun c => ¬ c ∈ granted) = []) ↔
      ∀ c ∈ requiredCapabilities tool, c ∈ granted := by
    rw [List.filter_eq_nil_iff]
    constructor
    · intro hh c hc
      have := hh c hc
      simpa using this
    · intro hh c hc
      simpa using hh c hc
  have hmain : checkCapabilities tool granted ≠ [] ↔
      ∃ c ∈ requiredCapabilities tool, c ∉ granted := by
    constructor
    · intro hne
      by_contra hno
      push_neg at hno
      exact hne (by simp only [checkCapabilities]; rw [if_pos (hfilter.mpr hno)])
    · rintro ⟨c, hc, hcg⟩ heq
      simp only [checkCapabilities] at heq
      split_ifs at heq with hm
      exact hcg (hfilter.mp hm c hc)
  have hread : ToolCapability.FILE_READ ∈ requiredCapabilities tool ↔
      (["read", "get", "load"].any
        (fun k => strContains (lowerStr tool) k)) = true := by
    unfold requiredCapabilities
    by_cases h1 : (["read", "get", "load"].any
      (fun k => strContains (lowerStr tool) k)) = true <;>
    by_cases h2 : (["write", "create", "update"].any
      (fun k => strContains (lowerStr tool) k)) = true <;>
    by_cases h3 : (["http", "network", "api"].any
      (fun k => strContains (lowerStr tool) k)) = true <;>
    by_cases h4 : (["exec", "run", "command"].any
      (fun k => strContains (lowerStr tool) k)) = true <;>
    simp [h1, h2, h3, h4]
  have hwrite : ToolCapability.FILE_WRITE ∈ requiredCapabilities tool ↔
      (["write", "create", "update"].any
        (fun k => strContains (lowerStr tool) k)) = true := by
    unfold requiredCapabilities
    by_cases h1 : (["read", "get", "load"].any
      (fun k => strContains (lowerStr tool) k)) = true <;>
    by_cases h2 : (["write", "create", "update"].any
      (fun k => strContains (lowerStr tool) k)) = true <;>
    by_cases h3 : (["http", "network", "api"].any
      (fun k => strContains (lowerStr tool) k)) = true <;>
    by_cases h4 : (["exec", "run", "command"].any
      (fun k => strContains (lowerStr tool) k)) = true <;>
    simp [h1, h2, h3, h4]
  have hval : validateCallSuccess [] tool granted = false ↔
      checkCapabilities tool granted ≠ [] := by
    unfold validateCallSuccess
    simp
  exact ⟨hmain, hread, hwrite, hval.trans hmain⟩

/-- C7 witness: the amended equivalences at the concrete tool name
`read_file` and an empty grant set. -/
theorem C7_amended_witness :
    (checkCapabilities "read_file" [] ≠ [] ↔
      ∃ c ∈ requiredCapabilities "read_file",
        c ∉ ([] : List ToolCapability)) :=
  (C7_amended "read_file" []).1

/-! ### Claim C8 — pattern-matcher confidence -/

/-- The concrete matcher used for C8's closed instances: for a literal
pattern without regex metacharacters, `re.search(p, t)` is substring
containment. -/
def containsSearch : String → String → Bool := fun p t => strContains t p

/-- C8 counterexample: with the duplicate pattern list `["b", "b"]` on
text `"abc"` both entries fire, so the code computes
`min(0.95 + (2-1)*0.05, 1) = 1.0`, while only one distinct matcher
fired, for which the claimed formula gives `0.95`. -/
theorem C8_counterexample :
    ¬ (∀ (regexSearch : String → String → Bool) (text : String)
         (patterns : List String),
        (pmatch regexSearch text patterns).confidence =
          (if ((patterns.filter (fun p => regexSearch p text)).dedup.length)
              = 0 then 0
           else pymin (95/100 +
             (((patterns.filter
                 (fun p => regexSearch p text)).dedup.length : Rat) - 1)
               * (5/100)) 1)) := by
  intro h
  have h2 := h containsSearch "abc" ["b", "b"]
  have hf : ["b", "b"].filter (fun p => containsSearch p "abc") = ["b", "b"] :=
    by decide
  have hd : (["b", "b"].dedup) = ["b"] := by decide
  rw [hf, hd] at h2
  simp only [pmatch, hf] at h2
  rw [if_neg (show ¬ (["b", "b"] = ([] : List String)) from by decide),
    if_neg (show ¬ (["b", "b"] = ([] : List String)) from by decide)] at h2
  norm_num [pymin] at h2

/-- C8 amended: the confidence is 0 when no pattern entry fires and
otherwise `min(1.0, 0.95 + (k-1)*0.05)` where `k` counts the pattern
entries that fired with multiplicity (a duplicated pattern counts
twice); consequently a triggered result has confidence in
[0.95, 1.0]. -/
theorem C8_amended :
    ∀ (regexSearch : String → String → Bool) (text : String)
      (patterns : List String),
      (pmatch regexSearch text patterns).confidence =
        (if (patterns.filter (fun p => regexSearch p text)).length = 0 then 0
         else pymin (95/100 +
           (((patterns.filter (fun p => regexSearch p text)).length : Rat) - 1)
             * (5/100)) 1) ∧
      ((pmatch regexSearch text patterns).triggered = true →
        (19/20 : Rat) ≤ (pmatch regexSearch text patterns).confidence ∧
        (pmatch regexSearch text patterns).confidence ≤ 1) := by
  intro rs text patterns
  by_cases hp : patterns = []
  · subst hp
    simp [pmatch]
  · by_cases hm : patterns.filter (fun p => rs p text) = []
    · simp [pmatch, if_neg hp, hm]
    · have hlen : ¬ (patterns.filter (fun p => rs p text)).length = 0 :=
        fun hc => hm (List.length_eq_zero.mp hc)
      have h1 : 1 ≤ (patterns.filter (fun p => rs p text)).length :=
        Nat.one_le_iff_ne_zero.mpr hlen
      have hcast : (1 : Rat) ≤
          ((patterns.filter (fun p => rs p text)).length : Rat) := by
        exact_mod_cast h1
      have hlow : (19/20 : Rat) ≤ 95/100 +
          (((patterns.filter (fun p => rs p text)).length : Rat) - 1)
            * (5/100) := by
        have hnn : (0 : Rat) ≤
            (((patterns.filter (fun p => rs p text)).length : Rat) - 1)
              * (5/100) := by
          apply mul_nonneg
          · linarith
          · norm_num
        linarith
      simp only [pmatch, if_neg hp, if_neg hm, if_neg hlen]
      refine ⟨by trivial, fun _ => ⟨?_, ?_⟩⟩
      · unfold pymin
        split_ifs with hle
        · exact hlow
        · norm_num
      · unfold pymin
        split_ifs with hle
        · exact hle
        · norm_num

/-- C8 witness: the triggered-confidence bounds at a concrete firing
pattern list. -/
theorem C8_amended_witness :
    (19/20 : Rat) ≤ (pmatch containsSearch "abc" ["b"]).confidence ∧
    (pmatch containsSearch "abc" ["b"]).confidence ≤ 1 :=
  (C8_amended containsSearch "abc" ["b"]).2 (by decide)

/-! ### Claim C10 — the false_positives_prevented statistic -/

/-- One `adapt_decision` call never changes `false_positives_prevented`:
its increment is guarded by `not allow` (i.e. `adjusted_risk >= 0.70`)
conjoined with `adjusted_risk < 0.70`. -/
theorem adaptStats_fpp (s : AdaptiveStats) (b : Rat) (a : List Rat) :
    (adaptDecisionStats s b a).1.false_positives_prevented =
      s.false_positives_prevented := by
  have hguard : ¬ (¬ ((decide (max 0 (min 1 (b + a.sum)) < 7/10)) = true) ∧
      b ≥ 7/10 ∧ max 0 (min 1 (b + a.sum)) < 7/10) := by
    rintro ⟨hna, _, hlt⟩
    exact hna (by simpa using hlt)
  unfold adaptDecisionStats
  dsimp only
  rw [if_neg hguard]
  split_ifs <;> rfl

/-- C10: over any sequence of `adapt_decision` calls the
`false_positives_prevented` counter is unchanged — its increment guard
(block decision, which requires adjusted risk ≥ 0.70, conjoined with
adjusted risk < 0.70) is unsatisfiable — and from the initial statistics
it therefore remains 0. -/
theorem C10_false_positives_never :
    (∀ (stats : AdaptiveStats) (calls : List (Rat × List Rat)),
      (runAdaptive stats calls).false_positives_prevented =
        stats.false_positives_prevented) ∧
    (∀ calls : List (Rat × List Rat),
      (runAdaptive AdaptiveStats.init calls).false_positives_prevented = 0) := by
  have hrun : ∀ (calls : List (Rat × List Rat)) (stats : AdaptiveStats),
      (runAdaptive stats calls).false_positives_prevented =
        stats.false_positives_prevented := by
    intro calls
    induction calls with
    | nil => intro stats; rfl
    | cons c t ihc =>
        intro stats
        have hstep : runAdaptive stats (c :: t) =
            runAdaptive (adaptDecisionStats stats c.1 c.2).1 t := rfl
        rw [hstep, ihc, adaptStats_fpp]
  exact ⟨fun stats calls => hrun calls stats, fun calls => hrun calls _⟩

end SafeMCP
